import Mathlib

set_option autoImplicit false

/-!
Shallow embedding of the ETL pipeline of the Software-Backend-Intern-Assignment
repository (src/utils/validators.js, src/utils/db.js, src/unnamed/part_000 =
utils/quality.js, src/etl/etl.js, src/etl/titanic_etl.js, src/unnamed/part_005 =
the register_student stored procedure), together with theorems settling the
frozen claims about its specification.

Conventions of the embedding:
- a JavaScript field value that may be a string or undefined is `Option String`
  (`none` = undefined / absent, `some s` = the string `s`);
- JavaScript truthiness of such a value: `undefined` and the empty string are
  falsy, every other string is truthy;
- `parseInt` / `parseFloat` return `Option Int` / `Option JsNumber`
  (`none` = NaN); exact decimal rationals stand in for JS doubles, which is
  faithful for the parse-success and range-comparison facts the claims are
  about;
- the external `validator.isEmail` library predicate is a parameter
  `isEmail : String → Bool` of every definition that uses it, so theorems
  quantify over all possible implementations of that external library;
- fallible code returns `Except`; the relational store is explicit state.
-/

namespace ETLSpec

/-! ## JavaScript value primitives -/

/-- Truthiness of a possibly-undefined JS string: undefined and "" are falsy. -/
def jsTruthy : Option String → Bool
  | none => false
  | some s => s ≠ ""

/-- The JS expression `v || d` for a possibly-undefined string `v`. -/
def jsOr (v : Option String) (d : String) : String :=
  match v with
  | none => d
  | some s => if s = "" then d else s

/-- The JS expression `s || d` for strings. -/
def jsOrS (s d : String) : String :=
  if s = "" then d else s

/-- The JS expression `x.value || d` where `x.value` is `undefined` when the
validation failed: `undefined`, and the number 0, both fall through to `d`. -/
def jsNumOr (v : Option Int) (d : Int) : Int :=
  match v with
  | none => d
  | some x => if x = 0 then d else x

/-- The apostrophe character, kept out of string literals. -/
def sq : String := String.singleton (Char.ofNat 39)

/-- The double quote character. -/
def dq : Char := Char.ofNat 34

/-- Characters stripped by sanitizeString: the set matched by its regex. -/
def isHazardChar (c : Char) : Bool :=
  c = '<' || c = '>' || c = Char.ofNat 39 || c = dq

/-- The regex class \w: word characters. -/
def isWordChar (c : Char) : Bool :=
  c.isAlphanum || c = '_'

/-- JS String.prototype.trim on a character list. -/
def trimChars (cs : List Char) : List Char :=
  ((cs.dropWhile Char.isWhitespace).reverse.dropWhile Char.isWhitespace).reverse

/-- JS String.prototype.trim. -/
def jsTrim (s : String) : String :=
  String.mk (trimChars s.toList)

/-- Worker for collapseWs; the flag records whether the previous character
belonged to a whitespace run already emitted as a single space. -/
def collapseWsAux : Bool → List Char → List Char
  | _, [] => []
  | prevWs, c :: cs =>
    if c.isWhitespace then
      if prevWs then collapseWsAux true cs
      else ' ' :: collapseWsAux true cs
    else c :: collapseWsAux false cs

/-- Collapse every maximal run of whitespace to a single space: /\s+/g → " ". -/
def collapseWs (cs : List Char) : List Char :=
  collapseWsAux false cs

/-- JS String.prototype.toLowerCase (ASCII, matching the inputs in scope). -/
def jsToLower (s : String) : String :=
  String.mk (s.toList.map Char.toLower)

/-- JS String.prototype.toUpperCase (ASCII, matching the inputs in scope). -/
def jsToUpper (s : String) : String :=
  String.mk (s.toList.map Char.toUpper)

/-- JS String.prototype.substring(0, n). -/
def jsSubstring (s : String) (n : Nat) : String :=
  String.mk (s.toList.take n)

/-- Worker for jsSplitSpace, carrying the reversed current chunk. -/
def splitSpaceAux : List Char → List Char → List String
  | [], acc => [String.mk acc.reverse]
  | c :: cs, acc =>
    if c = ' ' then String.mk acc.reverse :: splitSpaceAux cs []
    else splitSpaceAux cs (c :: acc)

/-- JS String.prototype.split(" "): split at single space characters; the
empty string yields [""]. -/
def jsSplitSpace (s : String) : List String :=
  splitSpaceAux s.toList []

/-- Digits value of a digit list (most significant first). -/
def digitsToNat (ds : List Char) : Nat :=
  ds.foldl (fun acc c => 10 * acc + (c.toNat - 48)) 0

/-- JS parseInt on a possibly-undefined string: skip leading whitespace, an
optional sign, then read leading decimal digits; NaN (none) when no digit is
read.  parseInt(undefined) is NaN. -/
def jsParseInt (v : Option String) : Option Int :=
  match v with
  | none => none
  | some s =>
    let cs := s.toList.dropWhile Char.isWhitespace
    let (neg, cs) :=
      match cs with
      | '-' :: rest => (true, rest)
      | '+' :: rest => (false, rest)
      | rest => (false, rest)
    let ds := cs.takeWhile Char.isDigit
    if ds = [] then none
    else
      let n : Int := Int.ofNat (digitsToNat ds)
      some (if neg then -n else n)

/-- Exact rational stand-in for a JS double: an integer numerator over a
power-of-ten denominator, exactly as produced by decimal parsing.  All of its
operations are plain Int/Nat arithmetic, so concrete runs reduce in the
kernel. -/
structure JsNumber where
  num : Int
  den : Nat
deriving DecidableEq

/-- The JS number literal n. -/
def JsNumber.ofInt (n : Int) : JsNumber :=
  ⟨n, 1⟩

/-- Comparison of a parsed number with an integer bound: value < m. -/
def JsNumber.ltI (a : JsNumber) (m : Int) : Bool :=
  a.num < m * (a.den : Int)

/-- Comparison of a parsed number with an integer bound: value > m. -/
def JsNumber.gtI (a : JsNumber) (m : Int) : Bool :=
  m * (a.den : Int) < a.num

/-- Exponent digits after e/E in a float literal; a malformed exponent is
ignored (JS stops parsing there), contributing 0. -/
def readExp (cs : List Char) : Int :=
  let (eneg, cs) :=
    match cs with
    | '-' :: rest => (true, rest)
    | '+' :: rest => (false, rest)
    | rest => (false, rest)
  let ds := cs.takeWhile Char.isDigit
  if ds = [] then 0
  else
    let e : Int := Int.ofNat (digitsToNat ds)
    if eneg then -e else e

/-- JS parseFloat on a possibly-undefined string: skip leading whitespace, an
optional sign, integer digits, an optional fraction part, and an optional
exponent part; NaN (none) when no digit occurs before the exponent. -/
def jsParseFloat (v : Option String) : Option JsNumber :=
  match v with
  | none => none
  | some s =>
    let cs := s.toList.dropWhile Char.isWhitespace
    let (neg, cs) :=
      match cs with
      | '-' :: rest => (true, rest)
      | '+' :: rest => (false, rest)
      | rest => (false, rest)
    let intDs := cs.takeWhile Char.isDigit
    let cs := cs.dropWhile Char.isDigit
    let (fracDs, cs) :=
      match cs with
      | '.' :: rest => (rest.takeWhile Char.isDigit, rest.dropWhile Char.isDigit)
      | rest => ([], rest)
    if intDs = [] ∧ fracDs = [] then none
    else
      let base : Nat := digitsToNat intDs * 10 ^ fracDs.length + digitsToNat fracDs
      let expVal : Int :=
        match cs with
        | 'e' :: rest => readExp rest
        | 'E' :: rest => readExp rest
        | _ => 0
      let m : JsNumber :=
        if 0 ≤ expVal then ⟨Int.ofNat (base * 10 ^ expVal.toNat), 10 ^ fracDs.length⟩
        else ⟨Int.ofNat base, 10 ^ (fracDs.length + (-expVal).toNat)⟩
      some (if neg then ⟨-m.num, m.den⟩ else m)

/-! ## validators.js: field-level validators -/

/-- sanitizeString from validators.js: falsy / non-string input becomes "";
otherwise trim, strip the hazardous character set, truncate to maxLength. -/
def sanitizeString (input : Option String) (maxLength : Nat) : String :=
  if ¬ jsTruthy input then ""
  else
    match input with
    | none => ""
    | some s =>
      String.mk (((trimChars s.toList).filter (fun c => ¬ isHazardChar c)).take maxLength)

/-- sanitizeName from validators.js: falsy input becomes "Unknown"; otherwise
trim, keep only word characters, whitespace and hyphens, collapse whitespace
runs, truncate to maxLength. -/
def sanitizeName (name : String) (maxLength : Nat) : String :=
  if name = "" then "Unknown"
  else
    String.mk
      ((collapseWs
        ((trimChars name.toList).filter
          (fun c => isWordChar c || c.isWhitespace || c = '-'))).take maxLength)

/-- validateEmail from validators.js, parameterized by the external
validator.isEmail predicate. -/
def validateEmail (isEmail : String → Bool) (email : Option String) :
    Except String String :=
  if ¬ jsTruthy email then .error "Email is required"
  else
    match email with
    | none => .error "Email is required"
    | some s =>
      let sanitized := jsToLower (jsTrim s)
      if ¬ isEmail sanitized then .error "Invalid email format"
      else if sanitized.length > 100 then
        .error "Email too long (max 100 characters)"
      else .ok sanitized

/-- validatePhone from validators.js: a falsy phone is valid with value null;
otherwise strip to digits and + - ( ) space, truncate to 20.  The function
never reports an error. -/
def validatePhone (phone : Option String) : Option String :=
  if ¬ jsTruthy phone then none
  else
    match phone with
    | none => none
    | some s =>
      some (String.mk ((s.toList.filter
        (fun c => c.isDigit || c = '+' || c = '-' || c = '(' || c = ')' || c = ' ')).take 20))

/-- validateNumber from validators.js: parseFloat, then optional lower and
upper bound checks (the source only ever passes integer bounds). -/
def validateNumber (value : Option String) (lo hi : Option Int) :
    Except String JsNumber :=
  match jsParseFloat value with
  | none => .error "Invalid number"
  | some num =>
    match lo with
    | some m =>
      if num.ltI m then .error ("Number must be at least " ++ toString m)
      else
        match hi with
        | some M =>
          if num.gtI M then .error ("Number must be at most " ++ toString M)
          else .ok num
        | none => .ok num
    | none =>
      match hi with
      | some M =>
        if num.gtI M then .error ("Number must be at most " ++ toString M)
        else .ok num
      | none => .ok num

/-- validateInteger from validators.js: parseInt, then optional lower and
upper bound checks. -/
def validateInteger (value : Option String) (lo hi : Option Int) :
    Except String Int :=
  match jsParseInt value with
  | none => .error "Invalid integer"
  | some num =>
    match lo with
    | some m =>
      if num < m then .error ("Integer must be at least " ++ toString m)
      else
        match hi with
        | some M =>
          if num > M then .error ("Integer must be at most " ++ toString M)
          else .ok num
        | none => .ok num
    | none =>
      match hi with
      | some M =>
        if num > M then .error ("Integer must be at most " ++ toString M)
        else .ok num
      | none => .ok num

/-- parseFullName from validators.js: trim and collapse whitespace, split at
spaces, sanitize the first and remaining parts into first and last name. -/
def parseFullName (fullName : Option String) : Except String (String × String) :=
  if ¬ jsTruthy fullName then .error "Name is required"
  else
    match fullName with
    | none => .error "Name is required"
    | some s =>
      let sanitized := String.mk (collapseWs (trimChars s.toList))
      let parts := jsSplitSpace sanitized
      if parts = [] ∨ parts.head? = some "" then .error "Name cannot be empty"
      else
        let firstName := sanitizeName (parts.headD "") 50
        let lastName := sanitizeName (jsOrS (String.intercalate " " parts.tail) "Unknown") 50
        if firstName = "" ∨ firstName = "Unknown" then .error "First name is required"
        else .ok (firstName, lastName)

/-! ## validators.js: composite row validators -/

/-- Raw student row as read from a sheet / CSV / JSON source: positional
fields 0..9 (0 timestamp, 1 name, 2 email, 3 phone, 4 department, 5 course,
6 credits, 7 grade, 8 year, 9 status), each possibly undefined. -/
structure StudentRaw where
  c0 : Option String := none
  c1 : Option String := none
  c2 : Option String := none
  c3 : Option String := none
  c4 : Option String := none
  c5 : Option String := none
  c6 : Option String := none
  c7 : Option String := none
  c8 : Option String := none
  c9 : Option String := none
deriving DecidableEq

/-- Normalized student record produced by validateStudentRow; fields that are
only set when their check passed are Options. -/
structure StudentData where
  firstName : Option String
  lastName : Option String
  email : Option String
  phone : Option String
  department : String
  course : String
  credits : Option Int
  grade : Option String
  year : Int
deriving DecidableEq

/-- Result object of validateStudentRow. -/
structure StudentValidation where
  valid : Bool
  errors : List String
  data : StudentData
deriving DecidableEq

/-- Allowed grade values of validateStudentRow. -/
def gradeValues : List String :=
  ["A", "A-", "B+", "B", "B-", "C+", "C", "C-", "D", "F"]

/-- validateStudentRow from validators.js: checks name, email, phone,
department, course, credits, grade and year in that fixed order, pushing one
error message per failing check onto the errors list. -/
def validateStudentRow (isEmail : String → Bool) (row : StudentRaw) :
    StudentValidation :=
  let errors : List String := []
  let nameResult := parseFullName row.c1
  let (errors, firstName, lastName) :=
    match nameResult with
    | .error e => (errors ++ ["Name: " ++ e], none, none)
    | .ok (f, l) => (errors, some f, some l)
  let emailResult := validateEmail isEmail row.c2
  let (errors, email) :=
    match emailResult with
    | .error e => (errors ++ ["Email: " ++ e], none)
    | .ok em => (errors, some em)
  let phone := validatePhone row.c3
  let department := sanitizeString (some (jsOr row.c4 "General")) 100
  let course := sanitizeString (some (jsOr row.c5 "General")) 100
  let creditsResult := validateInteger row.c6 (some 1) (some 10)
  let errors :=
    match creditsResult with
    | .error e => if jsTruthy row.c6 then errors ++ ["Credits: " ++ e] else errors
    | .ok _ => errors
  let credits :=
    match creditsResult with
    | .ok v => some v
    | .error _ => none
  let grade :=
    if jsTruthy row.c7 then some (jsToUpper (sanitizeString row.c7 5)) else none
  let errors :=
    match grade with
    | some g =>
      if g ≠ "" ∧ ¬ gradeValues.contains g then
        errors ++ ["Grade: Invalid grade value " ++ sq ++ g ++ sq]
      else errors
    | none => errors
  let yearResult := validateInteger row.c8 (some 1) (some 5)
  let errors :=
    match yearResult with
    | .error e => if jsTruthy row.c8 then errors ++ ["Year: " ++ e] else errors
    | .ok _ => errors
  let year :=
    match yearResult with
    | .ok v => v
    | .error _ => 1
  { valid := errors.isEmpty
    errors := errors
    data :=
      { firstName := firstName, lastName := lastName, email := email
        phone := phone, department := department, course := course
        credits := credits, grade := grade, year := year } }

/-- Raw Netflix CSV row (lower-cased headers), fields possibly undefined. -/
structure NetflixRaw where
  show_id : Option String := none
  type : Option String := none
  title : Option String := none
  director : Option String := none
  cast : Option String := none
  country : Option String := none
  date_added : Option String := none
  release_year : Option String := none
  rating : Option String := none
  duration : Option String := none
  listed_in : Option String := none
  description : Option String := none
deriving DecidableEq

/-- Normalized Netflix record. -/
structure NetflixData where
  show_id : String
  type : String
  title : String
  director : String
  cast_members : String
  country : String
  date_added : String
  release_year : Option Int
  rating : String
  duration : String
  listed_in : String
  description : String
deriving DecidableEq

/-- validateNetflixRow from validators.js: a falsy show_id is the one
rejecting condition; every other field is sanitized or degraded. -/
def validateNetflixRow (row : NetflixRaw) : Except String NetflixData :=
  if ¬ jsTruthy row.show_id then .error "show_id is required"
  else
    let yearResult := validateInteger row.release_year (some 1900) (some 2030)
    .ok
      { show_id := sanitizeString row.show_id 10
        type := sanitizeString row.type 20
        title := sanitizeString row.title 255
        director := sanitizeString row.director 500
        cast_members := sanitizeString row.cast 1000
        country := sanitizeString row.country 255
        date_added := sanitizeString row.date_added 50
        release_year :=
          match yearResult with
          | .ok v => some v
          | .error _ => none
        rating := sanitizeString row.rating 20
        duration := sanitizeString row.duration 20
        listed_in := sanitizeString row.listed_in 500
        description := sanitizeString row.description 1000 }

/-- Raw Titanic CSV row (lower-cased headers), fields possibly undefined. -/
structure TitanicRaw where
  passengerid : Option String := none
  survived : Option String := none
  pclass : Option String := none
  name : Option String := none
  sex : Option String := none
  age : Option String := none
  sibsp : Option String := none
  parch : Option String := none
  ticket : Option String := none
  fare : Option String := none
  cabin : Option String := none
  embarked : Option String := none
deriving DecidableEq

/-- Normalized Titanic record. -/
structure TitanicData where
  passenger_id : Int
  survived : Int
  pclass : Int
  name : String
  sex : String
  age : Option JsNumber
  sibsp : Int
  parch : Int
  ticket : String
  fare : JsNumber
  cabin : String
  embarked : String
deriving DecidableEq

/-- The .value field of a validateInteger result: undefined when invalid. -/
def exceptValue (r : Except String Int) : Option Int :=
  match r with
  | .ok v => some v
  | .error _ => none

/-- validateTitanicRow from validators.js: an unparsable passengerid is the
one rejecting condition; every other field is sanitized or degraded to its
default. -/
def validateTitanicRow (row : TitanicRaw) : Except String TitanicData :=
  let passengerIdResult := validateInteger row.passengerid none none
  match passengerIdResult with
  | .error _ => .error "Invalid passenger_id"
  | .ok pid =>
    let ageResult := validateNumber row.age (some 0) (some 150)
    let fareResult := validateNumber row.fare (some 0) none
    let sibspResult := validateInteger row.sibsp (some 0) (some 10)
    let parchResult := validateInteger row.parch (some 0) (some 10)
    .ok
      { passenger_id := pid
        survived := jsNumOr (exceptValue (validateInteger row.survived (some 0) (some 1))) 0
        pclass := jsNumOr (exceptValue (validateInteger row.pclass (some 1) (some 3))) 3
        name := sanitizeString row.name 255
        sex := sanitizeString row.sex 10
        age :=
          match ageResult with
          | .ok v => some v
          | .error _ => none
        sibsp :=
          match sibspResult with
          | .ok v => v
          | .error _ => 0
        parch :=
          match parchResult with
          | .ok v => v
          | .error _ => 0
        ticket := sanitizeString row.ticket 50
        fare :=
          match fareResult with
          | .ok v => v
          | .error _ => JsNumber.ofInt 0
        cabin := sanitizeString row.cabin 50
        embarked := sanitizeString row.embarked 5 }

/-! ## Per-field error decomposition of the composite validators -/

/-- Error list view of an Except-shaped validator result: the rejected case
carries exactly one error message. -/
def errorList {α : Type} (r : Except String α) : List String :=
  match r with
  | .error e => [e]
  | .ok _ => []

/-- Errors contributed by the name field of a student row, computed
independently of the other fields. -/
def nameFieldErrors (row : StudentRaw) : List String :=
  match parseFullName row.c1 with
  | .error e => ["Name: " ++ e]
  | .ok _ => []

/-- Errors contributed by the email field of a student row. -/
def emailFieldErrors (isEmail : String → Bool) (row : StudentRaw) : List String :=
  match validateEmail isEmail row.c2 with
  | .error e => ["Email: " ++ e]
  | .ok _ => []

/-- Errors contributed by the credits field of a student row: only a present
(truthy) yet invalid value produces an error. -/
def creditsFieldErrors (row : StudentRaw) : List String :=
  match validateInteger row.c6 (some 1) (some 10) with
  | .error e => if jsTruthy row.c6 then ["Credits: " ++ e] else []
  | .ok _ => []

/-- Errors contributed by the grade field of a student row: only a present,
nonempty-after-sanitization value outside the allowed set produces an error. -/
def gradeFieldErrors (row : StudentRaw) : List String :=
  match (if jsTruthy row.c7 then some (jsToUpper (sanitizeString row.c7 5)) else none) with
  | some g =>
    if g ≠ "" ∧ ¬ gradeValues.contains g then
      ["Grade: Invalid grade value " ++ sq ++ g ++ sq]
    else []
  | none => []

/-- Errors contributed by the year field of a student row. -/
def yearFieldErrors (row : StudentRaw) : List String :=
  match validateInteger row.c8 (some 1) (some 5) with
  | .error e => if jsTruthy row.c8 then ["Year: " ++ e] else []
  | .ok _ => []

/-- The complete ordered list of field errors of a student row: one entry per
failing field check, in the fixed field order name, email, credits, grade,
year (phone, department and course never produce errors). -/
def studentFieldErrors (isEmail : String → Bool) (row : StudentRaw) : List String :=
  nameFieldErrors row ++ emailFieldErrors isEmail row ++ creditsFieldErrors row ++
    gradeFieldErrors row ++ yearFieldErrors row

/-- The complete list of field errors of a Netflix row: show_id is the only
field whose check can produce an error. -/
def netflixFieldErrors (row : NetflixRaw) : List String :=
  if ¬ jsTruthy row.show_id then ["show_id is required"] else []

/-- The complete list of field errors of a Titanic row: passengerid is the
only field whose check can produce an error. -/
def titanicFieldErrors (row : TitanicRaw) : List String :=
  match validateInteger row.passengerid none none with
  | .error _ => ["Invalid passenger_id"]
  | .ok _ => []

/-- validateStudentRow returns exactly the ordered concatenation of the five
independent per-field error lists: no truncation at the first failure. -/
theorem validateStudentRow_errors (isEmail : String → Bool) (row : StudentRaw) :
    (validateStudentRow isEmail row).errors = studentFieldErrors isEmail row := by
  unfold validateStudentRow studentFieldErrors nameFieldErrors emailFieldErrors
    creditsFieldErrors gradeFieldErrors yearFieldErrors
  cases h1 : parseFullName row.c1 <;>
    cases h2 : validateEmail isEmail row.c2 <;>
      cases h3 : validateInteger row.c6 (some 1) (some 10) <;>
        cases h4 : validateInteger row.c8 (some 1) (some 5) <;>
          by_cases h5 : jsTruthy row.c7 <;>
            simp [h1, h2, h3, h4, h5] <;> split_ifs <;> simp_all

/-- The valid flag of validateStudentRow is the emptiness of its error list. -/
theorem validateStudentRow_valid_eq (isEmail : String → Bool) (row : StudentRaw) :
    (validateStudentRow isEmail row).valid = (validateStudentRow isEmail row).errors.isEmpty := by
  unfold validateStudentRow
  cases h1 : parseFullName row.c1 <;>
    cases h2 : validateEmail isEmail row.c2 <;>
      cases h3 : validateInteger row.c6 (some 1) (some 10) <;>
        cases h4 : validateInteger row.c8 (some 1) (some 5) <;>
          by_cases h5 : jsTruthy row.c7 <;>
            simp [h1, h2, h3, h4, h5]

/-- validateStudentRow accepts exactly when every per-field error list is
empty. -/
theorem validateStudentRow_valid (isEmail : String → Bool) (row : StudentRaw) :
    (validateStudentRow isEmail row).valid = (studentFieldErrors isEmail row).isEmpty := by
  rw [validateStudentRow_valid_eq, validateStudentRow_errors]

/-- validateNetflixRow reports exactly the field errors of a Netflix row. -/
theorem validateNetflixRow_errors (row : NetflixRaw) :
    errorList (validateNetflixRow row) = netflixFieldErrors row := by
  unfold validateNetflixRow netflixFieldErrors errorList
  by_cases h : jsTruthy row.show_id <;> simp [h]

/-- validateTitanicRow reports exactly the field errors of a Titanic row. -/
theorem validateTitanicRow_errors (row : TitanicRaw) :
    errorList (validateTitanicRow row) = titanicFieldErrors row := by
  unfold validateTitanicRow titanicFieldErrors errorList
  cases h : validateInteger row.passengerid none none <;> simp [h]

/-- C2: each of the three composite row validators, applied to any raw row,
returns the complete ordered list of all field errors of that row (one entry
per failing, error-producing field check, in the fixed field order), rather
than only the error of the first failing field.  For the student row the
error-producing checks are name, email, credits, grade and year; for the
Netflix and Titanic rows the single error-producing check is show_id
respectively passengerid (all their other fields degrade instead of
erroring), so their complete error list has at most one entry. -/
theorem claim_C2_row_validators_return_all_field_errors
    (isEmail : String → Bool) (srow : StudentRaw) (nrow : NetflixRaw)
    (trow : TitanicRaw) :
    (validateStudentRow isEmail srow).errors = studentFieldErrors isEmail srow ∧
    errorList (validateNetflixRow nrow) = netflixFieldErrors nrow ∧
    errorList (validateTitanicRow trow) = titanicFieldErrors trow :=
  ⟨validateStudentRow_errors isEmail srow, validateNetflixRow_errors nrow,
    validateTitanicRow_errors trow⟩

/-- Email predicate used in the C6 concrete counterexample row. -/
def c6IsEmail : String → Bool := fun s => s = "john@x.com"

/-- C6 concrete counterexample row: valid name and email, but a present,
malformed optional credits value. -/
def c6Row : StudentRaw :=
  { c1 := some "John Smith", c2 := some "john@x.com", c6 := some "abc" }

/-- C6 counterexample: the credits field is optional (its absence never
rejects: the same row with credits removed is accepted), yet a present
malformed credits value does cause the row to be Rejected — refuting the
claim that a malformed value in an optional field never rejects the row. -/
theorem claim_C6_counterexample :
    jsTruthy c6Row.c6 = true ∧
    (validateInteger c6Row.c6 (some 1) (some 10)).isOk = false ∧
    (validateStudentRow c6IsEmail c6Row).valid = false ∧
    (validateStudentRow c6IsEmail { c6Row with c6 := none }).valid = true := by
  refine ⟨rfl, rfl, ?_, ?_⟩ <;> decide

/-- C6 amended: a missing or malformed name or email (the required fields)
yields a Rejected result whose error list names that field; a malformed phone
value never influences acceptance; an absent credits, grade or year field
never produces an error; but a present malformed value in any of the
optional credits, grade or year fields does reject the row, naming that
field. -/
theorem claim_C6_required_fields_reject_naming_field
    (isEmail : String → Bool) (row : StudentRaw) :
    (∀ e, parseFullName row.c1 = .error e →
      (validateStudentRow isEmail row).valid = false ∧
      ("Name: " ++ e) ∈ (validateStudentRow isEmail row).errors) ∧
    (∀ e, validateEmail isEmail row.c2 = .error e →
      (validateStudentRow isEmail row).valid = false ∧
      ("Email: " ++ e) ∈ (validateStudentRow isEmail row).errors) ∧
    (∀ p, (validateStudentRow isEmail { row with c3 := p }).valid =
      (validateStudentRow isEmail row).valid) ∧
    (row.c6 = none → creditsFieldErrors row = []) ∧
    (row.c7 = none → gradeFieldErrors row = []) ∧
    (row.c8 = none → yearFieldErrors row = []) ∧
    (∀ e, validateInteger row.c6 (some 1) (some 10) = .error e →
      jsTruthy row.c6 = true →
      (validateStudentRow isEmail row).valid = false ∧
      ("Credits: " ++ e) ∈ (validateStudentRow isEmail row).errors) ∧
    (∀ g, jsTruthy row.c7 = true → jsToUpper (sanitizeString row.c7 5) = g →
      g ≠ "" → gradeValues.contains g = false →
      (validateStudentRow isEmail row).valid = false ∧
      ("Grade: Invalid grade value " ++ sq ++ g ++ sq) ∈
        (validateStudentRow isEmail row).errors) ∧
    (∀ e, validateInteger row.c8 (some 1) (some 5) = .error e →
      jsTruthy row.c8 = true →
      (validateStudentRow isEmail row).valid = false ∧
      ("Year: " ++ e) ∈ (validateStudentRow isEmail row).errors) := by
  refine ⟨?_, ?_, ?_, ?_, ?_, ?_, ?_, ?_, ?_⟩
  · intro e he
    rw [validateStudentRow_valid, validateStudentRow_errors]
    simp [studentFieldErrors, nameFieldErrors, he]
  · intro e he
    rw [validateStudentRow_valid, validateStudentRow_errors]
    simp [studentFieldErrors, emailFieldErrors, he]
  · intro p
    rw [validateStudentRow_valid, validateStudentRow_valid]
    rfl
  · intro h
    simp [creditsFieldErrors, h, validateInteger, jsParseInt, jsTruthy]
  · intro h
    simp [gradeFieldErrors, h, jsTruthy]
  · intro h
    simp [yearFieldErrors, h, validateInteger, jsParseInt, jsTruthy]
  · intro e he ht
    rw [validateStudentRow_valid, validateStudentRow_errors]
    simp [studentFieldErrors, creditsFieldErrors, he, ht]
  · intro g ht hg hne hcont
    subst hg
    have hmem : jsToUpper (sanitizeString row.c7 5) ∉ gradeValues := by
      simpa using hcont
    rw [validateStudentRow_valid, validateStudentRow_errors]
    simp [studentFieldErrors, gradeFieldErrors, ht, hne, hmem]
  · intro e he ht
    rw [validateStudentRow_valid, validateStudentRow_errors]
    simp [studentFieldErrors, yearFieldErrors, he, ht]

/-- C6 witness row: missing name, malformed email, and present malformed
credits, grade and year values. -/
def c6WRow : StudentRaw :=
  { c2 := some "oops", c6 := some "abc", c7 := some "Z", c8 := some "9" }

/-- C6 witness: the amended theorem applied at a concrete row whose name is
missing, whose email is malformed and whose credits, grade and year are
present and malformed: the row is rejected and the error list names each of
those fields. -/
theorem claim_C6_witness :
    (validateStudentRow c6IsEmail c6WRow).valid = false ∧
    ("Name: Name is required") ∈ (validateStudentRow c6IsEmail c6WRow).errors ∧
    ("Email: Invalid email format") ∈ (validateStudentRow c6IsEmail c6WRow).errors ∧
    ("Credits: Invalid integer") ∈ (validateStudentRow c6IsEmail c6WRow).errors ∧
    ("Grade: Invalid grade value " ++ sq ++ "Z" ++ sq) ∈
      (validateStudentRow c6IsEmail c6WRow).errors ∧
    ("Year: Integer must be at most 5") ∈
      (validateStudentRow c6IsEmail c6WRow).errors := by
  have h := claim_C6_required_fields_reject_naming_field c6IsEmail c6WRow
  have hn := h.1 "Name is required" rfl
  have he := h.2.1 "Invalid email format" rfl
  have hc := h.2.2.2.2.2.2.1 "Invalid integer" rfl rfl
  have hg := h.2.2.2.2.2.2.2.1 "Z" rfl rfl (by decide) rfl
  have hy := h.2.2.2.2.2.2.2.2 "Integer must be at most 5" rfl rfl
  exact ⟨hn.1, hn.2, he.2, hc.2, hg.2, hy.2⟩

/-- C10: validateTitanicRow accepts a row exactly when its passengerid parses
as an integer, and in every accepted row each other field that is missing or
fails its check degrades to its fixed default (survived 0, pclass 3, age
null, sibsp 0, parch 0, fare 0) instead of rejecting the row. -/
theorem claim_C10_titanic_accept_iff_passengerid (row : TitanicRaw) :
    ((validateTitanicRow row).isOk = (jsParseInt row.passengerid).isSome) ∧
    (∀ d, validateTitanicRow row = .ok d →
      ((validateInteger row.survived (some 0) (some 1)).isOk = false → d.survived = 0) ∧
      ((validateInteger row.pclass (some 1) (some 3)).isOk = false → d.pclass = 3) ∧
      ((validateNumber row.age (some 0) (some 150)).isOk = false → d.age = none) ∧
      ((validateInteger row.sibsp (some 0) (some 10)).isOk = false → d.sibsp = 0) ∧
      ((validateInteger row.parch (some 0) (some 10)).isOk = false → d.parch = 0) ∧
      ((validateNumber row.fare (some 0) none).isOk = false → d.fare = JsNumber.ofInt 0)) := by
  constructor
  · unfold validateTitanicRow
    cases hp : jsParseInt row.passengerid <;>
      simp [validateInteger, hp, Except.isOk, Except.toBool]
  · intro d hd
    unfold validateTitanicRow at hd
    cases h : validateInteger row.passengerid none none with
    | error e => rw [h] at hd; exact absurd hd (by simp)
    | ok v =>
      rw [h] at hd
      simp only [Except.ok.injEq] at hd
      subst hd
      refine ⟨?_, ?_, ?_, ?_, ?_, ?_⟩
      · intro hs
        cases hv : validateInteger row.survived (some 0) (some 1) <;>
          simp [hv, exceptValue, jsNumOr, Except.isOk, Except.toBool] at hs ⊢
      · intro hs
        cases hv : validateInteger row.pclass (some 1) (some 3) <;>
          simp [hv, exceptValue, jsNumOr, Except.isOk, Except.toBool] at hs ⊢
      · intro hs
        cases hv : validateNumber row.age (some 0) (some 150) <;>
          simp [hv, Except.isOk, Except.toBool] at hs ⊢
      · intro hs
        cases hv : validateInteger row.sibsp (some 0) (some 10) <;>
          simp [hv, Except.isOk, Except.toBool] at hs ⊢
      · intro hs
        cases hv : validateInteger row.parch (some 0) (some 10) <;>
          simp [hv, Except.isOk, Except.toBool] at hs ⊢
      · intro hs
        cases hv : validateNumber row.fare (some 0) none <;>
          simp [hv, Except.isOk, Except.toBool] at hs ⊢

/-- C10 concrete witness row: a parsable passengerid and every degradable
field present but failing its check. -/
def wRowT : TitanicRaw :=
  { passengerid := some "7", survived := some "5", pclass := some "9",
    age := some "abc", sibsp := some "99", parch := some "-3",
    fare := some "-2" }

/-- C10 witness: at the concrete row wRowT the validator accepts (the
passengerid parses) and every failing field takes its documented default. -/
theorem claim_C10_witness :
    (validateTitanicRow wRowT).isOk = true ∧
    (validateTitanicRow wRowT).toOption.map TitanicData.survived = some 0 ∧
    (validateTitanicRow wRowT).toOption.map TitanicData.pclass = some 3 ∧
    (validateTitanicRow wRowT).toOption.map TitanicData.age = some none ∧
    (validateTitanicRow wRowT).toOption.map TitanicData.sibsp = some 0 ∧
    (validateTitanicRow wRowT).toOption.map TitanicData.parch = some 0 ∧
    (validateTitanicRow wRowT).toOption.map TitanicData.fare = some (JsNumber.ofInt 0) := by
  have h := claim_C10_titanic_accept_iff_passengerid wRowT
  have hOk : (validateTitanicRow wRowT).isOk = true := by
    rw [h.1]; decide
  cases hv : validateTitanicRow wRowT with
  | error e => rw [hv] at hOk; exact absurd hOk (by simp [Except.isOk, Except.toBool])
  | ok d =>
    have h2 := h.2 d hv
    refine ⟨hOk, ?_, ?_, ?_, ?_, ?_, ?_⟩ <;>
      simp only [hv, Except.toOption, Option.map_some]
    · exact congrArg some (h2.1 (by decide))
    · exact congrArg some (h2.2.1 (by decide))
    · exact congrArg some (h2.2.2.1 (by decide))
    · exact congrArg some (h2.2.2.2.1 (by decide))
    · exact congrArg some (h2.2.2.2.2.1 (by decide))
    · exact congrArg some (h2.2.2.2.2.2 (by decide))

/-! ## quality.js (src/unnamed/part_000): the Quality Auditor

The store is abstracted as the results the four checks' SQL queries read from
it: a total row count, the contents of string-typed and numeric-typed columns
(entries are Options, none standing for SQL NULL) and per-column NULL counts.
Real timestamps are outside the embedding, so the report carries no
timestamp field. -/

/-- Oracle view of the audited table, one field per kind of SQL query the
checks issue. -/
structure AuditTable where
  rowCount : Nat
  colValues : String → List (Option String)
  nullCount : String → Nat
  numValues : String → List (Option JsNumber)

/-- Result object of verifyRowCount. -/
structure RowCountResult where
  valid : Bool
  expected : Int
  actual : Int
  difference : Int
deriving DecidableEq

/-- verifyRowCount from quality.js: compare COUNT(*) with the expected count
within a tolerance. -/
def verifyRowCount (expectedCount tolerance : Int) (t : AuditTable) :
    RowCountResult :=
  let actualCount : Int := t.rowCount
  let diff : Int := |actualCount - expectedCount|
  if diff > tolerance then
    { valid := false, expected := expectedCount, actual := actualCount, difference := diff }
  else
    { valid := true, expected := expectedCount, actual := actualCount, difference := diff }

/-- Result object of checkDuplicates. -/
structure DupResult where
  hasDuplicates : Bool
  count : Nat
  duplicates : List (Option String × Nat)
deriving DecidableEq

/-- Rows of the GROUP BY ... HAVING COUNT(*) > 1 query over a column (SQL
groups NULLs into one group). -/
def dupGroups (vals : List (Option String)) : List (Option String × Nat) :=
  vals.dedup.filterMap (fun k =>
    let c := vals.count k
    if 1 < c then some (k, c) else none)

/-- checkDuplicates from quality.js. -/
def checkDuplicates (uniqueColumn : String) (t : AuditTable) : DupResult :=
  let rows := dupGroups (t.colValues uniqueColumn)
  if rows.length > 0 then
    { hasDuplicates := true, count := rows.length, duplicates := rows }
  else
    { hasDuplicates := false, count := 0, duplicates := [] }

/-- checkNullValues from quality.js: the per-column NULL counts, in column
order. -/
def checkNullValues (columns : List String) (t : AuditTable) :
    List (String × Nat) :=
  columns.map (fun column => (column, t.nullCount column))

/-- One entry of the validations configuration list. -/
structure Validation where
  column : String
  vtype : String
  min : Option Int := none
  max : Option Int := none

/-- One issue recorded by validateDataTypes. -/
structure TypeIssue where
  column : String
  issue : String
  count : Nat
deriving DecidableEq

/-- Result object of validateDataTypes. -/
structure DataTypeResult where
  valid : Bool
  issues : List TypeIssue
deriving DecidableEq

/-- Rows counted by the out-of-range query: col < min OR col > max; SQL NULLs
satisfy neither comparison. -/
def countOutOfRange (vals : List (Option JsNumber)) (lo hi : Option Int) : Nat :=
  vals.countP (fun v =>
    match v with
    | some x =>
      (match lo with
       | some m => x.ltI m
       | none => false) ||
      (match hi with
       | some M => x.gtI M
       | none => false)
    | none => false)

/-- Characters of the regex class [A-Za-z0-9._%+-]. -/
def isEmailLocalChar (c : Char) : Bool :=
  c.isAlphanum || c = '.' || c = '_' || c = '%' || c = '+' || c = '-'

/-- Characters of the regex class [A-Za-z0-9.-]. -/
def isEmailDomainChar (c : Char) : Bool :=
  c.isAlphanum || c = '.' || c = '-'

/-- The store-level email regex of quality.js,
[A-Za-z0-9._%+-]+@[A-Za-z0-9.-]+[.][A-Za-z]{2,} anchored on both sides: a
nonempty local part before the first @, a nonempty domain part, and a final
all-alphabetic label of length at least 2 after the last dot. -/
def storeEmailRegex (s : String) : Bool :=
  let cs := s.toList
  let local_ := cs.takeWhile (· ≠ '@')
  match cs.dropWhile (· ≠ '@') with
  | '@' :: rest =>
    let tldRev := rest.reverse.takeWhile (· ≠ '.')
    (match rest.reverse.dropWhile (· ≠ '.') with
     | '.' :: domRev =>
       let dom := domRev.reverse
       let tld := tldRev.reverse
       decide (local_ ≠ []) && local_.all isEmailLocalChar &&
         decide (dom ≠ []) && dom.all isEmailDomainChar &&
         decide (2 ≤ tld.length) && tld.all Char.isAlpha
     | _ => false)
  | _ => false

/-- Rows counted by the email-format query: col !~ regex (NULL rows satisfy
neither, hence are not counted). -/
def countBadEmail (vals : List (Option String)) : Nat :=
  vals.countP (fun v =>
    match v with
    | some x => ¬ storeEmailRegex x
    | none => false)

/-- validateDataTypes from quality.js: for numeric validations with a bound,
count out-of-range rows; for email validations, count rows failing the email
regex; every nonzero count appends one issue and any issue makes the check
invalid. -/
def validateDataTypes (validations : List Validation) (t : AuditTable) :
    DataTypeResult :=
  let issues := validations.foldl
    (fun issues v =>
      let issues :=
        if v.vtype = "numeric" ∧ (v.min.isSome ∨ v.max.isSome) then
          let outOfRangeCount := countOutOfRange (t.numValues v.column) v.min v.max
          if outOfRangeCount > 0 then
            issues ++ [{ column := v.column, issue := "out_of_range", count := outOfRangeCount }]
          else issues
        else issues
      if v.vtype = "email" then
        let invalidCount := countBadEmail (t.colValues v.column)
        if invalidCount > 0 then
          issues ++ [{ column := v.column, issue := "invalid_format", count := invalidCount }]
        else issues
      else issues)
    []
  { valid := issues.length = 0, issues := issues }

/-- Configuration object of generateQualityReport; absent keys are none. -/
structure QualityConfig where
  expectedRowCount : Option Int := none
  rowCountTolerance : Option Int := none
  uniqueColumn : Option String := none
  requiredColumns : Option (List String) := none
  validations : Option (List Validation) := none

/-- JS truthiness of a possibly-undefined number: undefined and 0 are falsy. -/
def numTruthy : Option Int → Bool
  | none => false
  | some n => n ≠ 0

/-- The JS expression `v || d` for a possibly-undefined number. -/
def jsOrI (v : Option Int) (d : Int) : Int :=
  match v with
  | none => d
  | some n => if n = 0 then d else n

/-- Quality report: one optional result per check plus the aggregate passed
flag. -/
structure QualityReport where
  tableName : String
  rowCount : Option RowCountResult
  duplicates : Option DupResult
  nullValues : Option (List (String × Nat))
  dataTypes : Option DataTypeResult
  passed : Bool

/-- generateQualityReport from quality.js: each check runs only when its
configuration key is truthy (for expectedRowCount a number, truthy means
nonzero; for uniqueColumn, a nonempty string; arrays are truthy whenever
present), and the aggregate passed flag is the conjunction of rowCount.valid,
NOT duplicates.hasDuplicates and dataTypes.valid over the checks that ran. -/
def generateQualityReport (tableName : String) (cfg : QualityConfig)
    (t : AuditTable) : QualityReport :=
  let rowCount :=
    if numTruthy cfg.expectedRowCount then
      some (verifyRowCount (cfg.expectedRowCount.getD 0) (jsOrI cfg.rowCountTolerance 0) t)
    else none
  let duplicates :=
    if jsTruthy cfg.uniqueColumn then
      some (checkDuplicates (cfg.uniqueColumn.getD "") t)
    else none
  let nullValues :=
    match cfg.requiredColumns with
    | some columns => some (checkNullValues columns t)
    | none => none
  let dataTypes :=
    match cfg.validations with
    | some validations => some (validateDataTypes validations t)
    | none => none
  let passed :=
    (match rowCount with
     | some r => r.valid
     | none => true) &&
    (match duplicates with
     | some d => !d.hasDuplicates
     | none => true) &&
    (match dataTypes with
     | some dt => dt.valid
     | none => true)
  { tableName := tableName, rowCount := rowCount, duplicates := duplicates
    nullValues := nullValues, dataTypes := dataTypes, passed := passed }

/-- C3: the aggregate passed flag equals the conjunction of the row-count
check's validity, the negation of the duplicate check's hasDuplicates and the
data-type check's validity, each contributing only when that check is
present; and the null-value check influences nothing: neither the
requiredColumns configuration nor the store's per-column NULL counts change
passed. -/
theorem claim_C3_passed_is_conjunction_of_present_checks
    (tableName : String) (cfg : QualityConfig) (t : AuditTable) :
    ((generateQualityReport tableName cfg t).passed =
      (((generateQualityReport tableName cfg t).rowCount.map RowCountResult.valid).getD true &&
       ((generateQualityReport tableName cfg t).duplicates.map (fun d => !d.hasDuplicates)).getD true &&
       ((generateQualityReport tableName cfg t).dataTypes.map DataTypeResult.valid).getD true)) ∧
    (∀ rc : Option (List String),
      (generateQualityReport tableName { cfg with requiredColumns := rc } t).passed =
        (generateQualityReport tableName cfg t).passed) ∧
    (∀ f : String → Nat,
      (generateQualityReport tableName cfg { t with nullCount := f }).passed =
        (generateQualityReport tableName cfg t).passed) := by
  refine ⟨?_, ?_, ?_⟩
  · unfold generateQualityReport
    by_cases h1 : numTruthy cfg.expectedRowCount <;>
      by_cases h2 : jsTruthy cfg.uniqueColumn <;>
        cases cfg.validations <;>
          cases cfg.requiredColumns <;>
            simp [h1, h2]
  · intro rc
    unfold generateQualityReport
    by_cases h1 : numTruthy cfg.expectedRowCount <;>
      by_cases h2 : jsTruthy cfg.uniqueColumn <;>
        cases cfg.validations <;>
          cases rc <;>
            cases cfg.requiredColumns <;>
              simp [h1, h2]
  · intro f
    unfold generateQualityReport
    by_cases h1 : numTruthy cfg.expectedRowCount <;>
      by_cases h2 : jsTruthy cfg.uniqueColumn <;>
        cases cfg.validations <;>
          cases cfg.requiredColumns <;>
            simp [h1, h2, verifyRowCount, checkDuplicates, validateDataTypes]

/-! ## db.js: retry logic and batch insert -/

/-- A database error as classified by db.js: only its code matters. -/
structure DbErr where
  code : String
deriving DecidableEq

/-- Transient connectivity errors, the only codes db.js retries on. -/
def connectionErrCode (e : DbErr) : Bool :=
  e.code = "ECONNRESET" || e.code = "ETIMEDOUT"

/-- Worker for queryWithRetry: the fuel is the number of attempts still
allowed; attempt numbers what the source calls attempt.  Exhausted fuel
rethrows the last stored error (the source throws an undefined lastError when
retries = 0, modelled by the UNDEFINED code).  The returned list records the
sleeps performed, in milliseconds, in order. -/
def queryWithRetryAux {α : Type} (outcome : Nat → Except DbErr α) :
    Nat → Nat → Option DbErr → List Nat → Except DbErr α × List Nat
  | 0, _, lastError, delays => (.error (lastError.getD ⟨"UNDEFINED"⟩), delays)
  | fuel + 1, attempt, _, delays =>
    match outcome attempt with
    | .ok r => (.ok r, delays)
    | .error e =>
      if connectionErrCode e then
        queryWithRetryAux outcome fuel (attempt + 1) (some e) (delays ++ [1000 * attempt])
      else (.error e, delays)

/-- queryWithRetry from db.js: attempts 1..retries, sleeping 1000*attempt
after each failed transient attempt (including the last), rethrowing
non-transient errors at once. -/
def queryWithRetry {α : Type} (outcome : Nat → Except DbErr α) (retries : Nat) :
    Except DbErr α × List Nat :=
  queryWithRetryAux outcome retries 1 none []

/-- Worker for the initializePool connection-test loop: fuel is the number of
loop iterations still allowed by the while guard; retries is the counter
variable of the source.  connectAttempt tells whether the n-th connection
attempt succeeds.  The returned flag is success, the list the sleeps
performed. -/
def initializePoolAux (connectAttempt : Nat → Bool) (maxRetries retryDelay : Nat) :
    Nat → Nat → List Nat → Bool × List Nat
  | 0, _, delays => (false, delays)
  | fuel + 1, retries, delays =>
    if connectAttempt (retries + 1) then (true, delays)
    else
      let r2 := retries + 1
      if r2 ≥ maxRetries then (false, delays)
      else initializePoolAux connectAttempt maxRetries retryDelay fuel r2
        (delays ++ [retryDelay * r2])

/-- Retry loop of initializePool from db.js: the source comment on its sleep,
retryDelay * retries, calls it exponential backoff. -/
def initializePoolModel (connectAttempt : Nat → Bool) (maxRetries retryDelay : Nat) :
    Bool × List Nat :=
  initializePoolAux connectAttempt maxRetries retryDelay maxRetries 0 []

/-- Delays never outnumber the remaining fuel. -/
theorem queryWithRetryAux_delays_le {α : Type} (outcome : Nat → Except DbErr α) :
    ∀ (fuel attempt : Nat) (lastError : Option DbErr) (delays : List Nat),
      (queryWithRetryAux outcome fuel attempt lastError delays).2.length ≤
        delays.length + fuel := by
  intro fuel
  induction fuel with
  | zero => intro attempt le delays; simp [queryWithRetryAux]
  | succ n ih =>
    intro attempt lastError delays
    unfold queryWithRetryAux
    cases outcome attempt with
    | ok r => simp
    | error e =>
      by_cases h : connectionErrCode e
      · simpa [h] using
          Nat.le_trans (ih (attempt + 1) (some e) (delays ++ [1000 * attempt]))
            (by simp [Nat.add_comm, Nat.add_left_comm, Nat.add_assoc])
      · simp [h]

/-- The retry loop is bounded: a run never sleeps more than retries times. -/
theorem queryWithRetry_bounded {α : Type} (outcome : Nat → Except DbErr α)
    (retries : Nat) :
    (queryWithRetry outcome retries).2.length ≤ retries := by
  simpa using queryWithRetryAux_delays_le outcome retries 1 none []

/-- C7: retries happen only on transient connectivity codes — a non-transient
error on the first attempt propagates at once, with no sleep, for every
outcome oracle — and the attempt count is bounded by the retries argument;
but the backoff is linear, not exponential: with every attempt failing as
ECONNRESET and the default retries = 3, queryWithRetry sleeps exactly 1000,
2000, 3000 ms (and the initializePool connection-test loop with maxRetries =
4 sleeps retryDelay * 1, * 2, * 3), a schedule whose consecutive ratios
differ, so no exponential growth matches it: the code contradicts its own
Exponential backoff comment. -/
theorem claim_C7_retry_transient_only_but_backoff_linear :
    (∀ (outcome : Nat → Except DbErr Nat) (e : DbErr),
      connectionErrCode e = false → outcome 1 = .error e →
      queryWithRetry outcome 3 = (.error e, [])) ∧
    (∀ (outcome : Nat → Except DbErr Nat) (retries : Nat),
      (queryWithRetry outcome retries).2.length ≤ retries) ∧
    (queryWithRetry (fun _ => (Except.error ⟨"ECONNRESET"⟩ : Except DbErr Nat)) 3 =
      (.error ⟨"ECONNRESET"⟩, [1000, 2000, 3000])) ∧
    (initializePoolModel (fun _ => false) 4 1000 = (false, [1000, 2000, 3000])) ∧
    ((queryWithRetry (fun _ => (Except.error ⟨"ECONNRESET"⟩ : Except DbErr Nat)) 3).2.getD 1 0 *
        (queryWithRetry (fun _ => (Except.error ⟨"ECONNRESET"⟩ : Except DbErr Nat)) 3).2.getD 1 0 ≠
      (queryWithRetry (fun _ => (Except.error ⟨"ECONNRESET"⟩ : Except DbErr Nat)) 3).2.getD 0 0 *
        (queryWithRetry (fun _ => (Except.error ⟨"ECONNRESET"⟩ : Except DbErr Nat)) 3).2.getD 2 0) := by
  refine ⟨?_, queryWithRetry_bounded, rfl, rfl, by decide⟩
  intro outcome e hcode h1
  unfold queryWithRetry queryWithRetryAux
  rw [h1]
  simp [hcode]

/-- C7 witness: the general non-transient conjunct applied at a concrete
outcome oracle that fails with the Postgres syntax-error code 42601: the
error propagates immediately, with no sleeps. -/
theorem claim_C7_witness :
    queryWithRetry (fun _ => (Except.error ⟨"42601"⟩ : Except DbErr Nat)) 3 =
      (.error ⟨"42601"⟩, []) :=
  claim_C7_retry_transient_only_but_backoff_linear.1
    (fun _ => (Except.error ⟨"42601"⟩ : Except DbErr Nat)) ⟨"42601"⟩ rfl rfl

/-! ## db.js: batchInsert -/

/-- batchInsert from db.js, generic in the parameter type P and the store S:
exec is the oracle standing for queryWithRetry(query, flatValues) against the
store.  The result is ((rowCount, store), number of queries issued).  A null
or empty values argument short-circuits to rowCount 0 before any query text
is even built. -/
def batchInsert {P S : Type} (exec : String → List (Option P) → S → Nat × S)
    (tableName : String) (columns : List String)
    (values : Option (List (List P))) (conflictAction : String) (s : S) :
    (Nat × S) × Nat :=
  match values with
  | none => ((0, s), 0)
  | some vs =>
    if vs.length = 0 then ((0, s), 0)
    else
      let columnCount := columns.length
      let placeholders := vs.enum.map (fun ir =>
        let rowPlaceholders := (List.range columnCount).map (fun colIndex =>
          "$" ++ toString (ir.1 * columnCount + colIndex + 1))
        "(" ++ String.intercalate ", " rowPlaceholders ++ ")")
      let flatValues := (vs.map (fun row =>
        (List.range columnCount).map (fun colIndex => row.get? colIndex))).flatten
      let query := "INSERT INTO " ++ tableName ++ " (" ++
        String.intercalate ", " columns ++ ") VALUES " ++
        String.intercalate ", " placeholders ++ " ON CONFLICT " ++ conflictAction
      let (rc, s2) := exec query flatValues s
      ((rc, s2), 1)

/-- C9: for every store, every execution oracle and every table/column/
conflict configuration, calling batchInsert with null (undefined) or with an
empty values list issues no query, leaves the store unchanged and returns
rowCount 0 — the result does not depend on the oracle at all. -/
theorem claim_C9_batchInsert_empty_noop {P S : Type}
    (exec : String → List (Option P) → S → Nat × S)
    (tableName : String) (columns : List String) (conflictAction : String)
    (s : S) :
    batchInsert exec tableName columns none conflictAction s = ((0, s), 0) ∧
    batchInsert exec tableName columns (some []) conflictAction s = ((0, s), 0) :=
  ⟨rfl, rfl⟩

/-! ## titanic_etl.js: the conflict-skipping Titanic store

The titanic table is a list of rows; passenger_id is its primary key.  An
INSERT ... ON CONFLICT (passenger_id) DO NOTHING appends the row when the key
is fresh and silently skips it otherwise; the store-reported rowCount of a
multi-row statement is the number of rows actually appended (rows conflicting
with the table or with an earlier row of the same statement are skipped). -/

/-- Key membership: does a row with this passenger_id exist. -/
def titanicKeyMem (pid : Int) (t : List TitanicData) : Bool :=
  t.any (fun r => r.passenger_id = pid)

/-- Single-row INSERT ... ON CONFLICT (passenger_id) DO NOTHING; the Nat is
the store-reported inserted-row count (0 when conflict-skipped). -/
def titanicInsert (r : TitanicData) (t : List TitanicData) :
    Nat × List TitanicData :=
  if titanicKeyMem r.passenger_id t then (0, t) else (1, t ++ [r])

/-- Fold step accumulating (insertedCount, store). -/
def tStep (acc : Nat × List TitanicData) (r : TitanicData) :
    Nat × List TitanicData :=
  ((acc.1 + (titanicInsert r acc.2).1), (titanicInsert r acc.2).2)

/-- One multi-row INSERT statement with the conflict clause: rows are applied
in order, and the reported rowCount counts the rows actually appended. -/
def titanicInsertBatch (batch t : List TitanicData) : Nat × List TitanicData :=
  batch.foldl tStep (0, t)

/-- Store contents after a batch, ignoring the count. -/
def titanicStoreAfter (batch t : List TitanicData) : List TitanicData :=
  (titanicInsertBatch batch t).2

/-- Worker for loadTitanicData: the fuel is an upper bound on the remaining
rows, making the chunked loop structural.  The chunk size is batchSize
(config.etl.batchSize, always positive in the source). -/
def loadTitanicAux (b : Nat) : Nat → List TitanicData → List TitanicData →
    Nat × List TitanicData
  | 0, _, t => (0, t)
  | _ + 1, [], t => (0, t)
  | fuel + 1, r :: rest, t =>
    let batch := r :: rest.take (b - 1)
    let p1 := titanicInsertBatch batch t
    let p2 := loadTitanicAux b fuel (rest.drop (b - 1)) p1.2
    (p1.1 + p2.1, p2.2)

/-- loadTitanicData from titanic_etl.js: inside one transaction, insert the
accepted rows in batches of batchSize with the conflict clause, summing the
store-reported per-statement row counts.  (loadNetflixData is the same loop
over the netflix table keyed by show_id.) -/
def loadTitanicData (b : Nat) (rows t : List TitanicData) :
    Nat × List TitanicData :=
  loadTitanicAux b rows.length rows t

/-- Folding from an accumulated count is folding from zero plus the offset. -/
theorem tStep_shift (batch : List TitanicData) :
    ∀ (c : Nat) (t : List TitanicData),
      batch.foldl tStep (c, t) =
        (c + (batch.foldl tStep (0, t)).1, (batch.foldl tStep (0, t)).2) := by
  induction batch with
  | nil => intro c t; simp
  | cons r bs ih =>
    intro c t
    simp only [List.foldl_cons]
    rw [ih, ih (tStep (0, t) r).1]
    simp [tStep, Nat.add_assoc]

/-- Eta-form of tStep_shift for an arbitrary pair accumulator. -/
theorem tStep_shift2 (batch : List TitanicData) (p : Nat × List TitanicData) :
    batch.foldl tStep p =
      (p.1 + (batch.foldl tStep (0, p.2)).1, (batch.foldl tStep (0, p.2)).2) := by
  rcases p with ⟨c, t⟩
  exact tStep_shift batch c t

/-- The batched load equals one flat batch over all rows, for every chunk
size. -/
theorem loadTitanicAux_eq (b : Nat) :
    ∀ (fuel : Nat) (rows t : List TitanicData), rows.length ≤ fuel →
      loadTitanicAux b fuel rows t = titanicInsertBatch rows t := by
  intro fuel
  induction fuel with
  | zero =>
    intro rows t h
    rw [Nat.le_zero, List.length_eq_zero] at h
    subst h
    rfl
  | succ n ih =>
    intro rows t h
    match rows with
    | [] => rfl
    | r :: rest =>
      simp only [loadTitanicAux]
      rw [ih (rest.drop (b - 1)) _ (by
        simp only [List.length_drop]
        exact Nat.le_trans (Nat.sub_le _ _) (Nat.le_of_succ_le_succ h))]
      unfold titanicInsertBatch
      have hsplit : r :: rest = (r :: rest.take (b - 1)) ++ rest.drop (b - 1) := by
        simp [List.take_append_drop]
      rw [hsplit, List.foldl_append]
      conv_rhs => rw [tStep_shift2 (List.drop (b - 1) rest)]

/-- The batched load equals one flat batch. -/
theorem loadTitanicData_eq (b : Nat) (rows t : List TitanicData) :
    loadTitanicData b rows t = titanicInsertBatch rows t :=
  loadTitanicAux_eq b rows.length rows t (Nat.le_refl _)

/-- The store grows by exactly the reported count. -/
theorem titanicInsertBatch_length (batch : List TitanicData) :
    ∀ t, (titanicInsertBatch batch t).2.length =
      t.length + (titanicInsertBatch batch t).1 := by
  induction batch with
  | nil => intro t; simp [titanicInsertBatch]
  | cons r bs ih =>
    intro t
    unfold titanicInsertBatch at ih ⊢
    simp only [List.foldl_cons]
    rw [tStep_shift]
    simp only [tStep]
    rw [ih]
    unfold titanicInsert
    by_cases h : titanicKeyMem r.passenger_id t = true <;>
      simp [h, Nat.add_assoc, Nat.add_comm, Nat.add_left_comm]

/-- Inserting preserves key membership. -/
theorem titanicKeyMem_insert_mono (k : Int) (r : TitanicData)
    (t : List TitanicData) (h : titanicKeyMem k t = true) :
    titanicKeyMem k (titanicInsert r t).2 = true := by
  unfold titanicInsert
  cases hm : titanicKeyMem r.passenger_id t with
  | true => simpa [hm]
  | false =>
    simp only [hm, Bool.false_eq_true, if_false]
    simp only [titanicKeyMem, List.any_append] at h ⊢
    simp [h]

/-- After inserting a row its key is present. -/
theorem titanicKeyMem_insert_self (r : TitanicData) (t : List TitanicData) :
    titanicKeyMem r.passenger_id (titanicInsert r t).2 = true := by
  unfold titanicInsert
  cases hm : titanicKeyMem r.passenger_id t with
  | true => simp [hm]
  | false =>
    simp only [hm, Bool.false_eq_true, if_false]
    simp [titanicKeyMem, List.any_append]

/-- A whole batch preserves key membership. -/
theorem titanicKeyMem_batch_mono (k : Int) (batch : List TitanicData) :
    ∀ t, titanicKeyMem k t = true →
      titanicKeyMem k (titanicStoreAfter batch t) = true := by
  induction batch with
  | nil => intro t h; simpa [titanicStoreAfter, titanicInsertBatch]
  | cons r bs ih =>
    intro t h
    have hstep := titanicKeyMem_insert_mono k r t h
    have : titanicStoreAfter (r :: bs) t = titanicStoreAfter bs (titanicInsert r t).2 := by
      unfold titanicStoreAfter titanicInsertBatch
      simp only [List.foldl_cons]
      rw [tStep_shift]
      simp [tStep]
    rw [this]
    exact ih _ hstep

/-- Every key of a batch is present after the batch ran. -/
theorem titanicKeyMem_after_batch (batch : List TitanicData) :
    ∀ t, ∀ r ∈ batch, titanicKeyMem r.passenger_id (titanicStoreAfter batch t) = true := by
  induction batch with
  | nil => intro t r hr; cases hr
  | cons x bs ih =>
    intro t r hr
    have hcons : titanicStoreAfter (x :: bs) t = titanicStoreAfter bs (titanicInsert x t).2 := by
      unfold titanicStoreAfter titanicInsertBatch
      simp only [List.foldl_cons]
      rw [tStep_shift]
      simp [tStep]
    rcases List.mem_cons.mp hr with hx | hbs
    · subst hx
      rw [hcons]
      exact titanicKeyMem_batch_mono _ bs _ (titanicKeyMem_insert_self r t)
    · rw [hcons]
      exact ih _ r hbs

/-- A batch whose keys are all present changes nothing and reports zero. -/
theorem titanicInsertBatch_absorbed (batch : List TitanicData) :
    ∀ t, (∀ r ∈ batch, titanicKeyMem r.passenger_id t = true) →
      titanicInsertBatch batch t = (0, t) := by
  induction batch with
  | nil => intro t _; rfl
  | cons r bs ih =>
    intro t h
    unfold titanicInsertBatch
    simp only [List.foldl_cons]
    have hr := h r (List.mem_cons_self r bs)
    have : tStep (0, t) r = (0, t) := by
      simp [tStep, titanicInsert, hr]
    rw [this]
    exact ih t (fun x hx => h x (List.mem_cons_of_mem r hx))

/-- Loading the same rows twice leaves the store as after the first load and
reports zero inserted on the second run. -/
theorem titanicInsertBatch_idem (batch t : List TitanicData) :
    titanicInsertBatch batch (titanicInsertBatch batch t).2 =
      (0, (titanicInsertBatch batch t).2) :=
  titanicInsertBatch_absorbed batch _ (titanicKeyMem_after_batch batch t)

/-! ## register_student (src/unnamed/part_005) and loadData (etl.js)

The students/courses/enrollments store of the student pipeline.  The stored
procedure register_student inserts the student with ON CONFLICT (email) DO
UPDATE SET email = p_email (a write of the very value that conflicted, so the
row is unchanged), resolves the student id by email, looks the course up by
name and inserts the enrollment with ON CONFLICT DO NOTHING.  Sequence
consumption is not table content and is not modelled. -/

/-- Row of the students table. -/
structure Student where
  student_id : Nat
  first_name : String
  last_name : String
  email : String
deriving DecidableEq

/-- Row of the courses table. -/
structure Course where
  course_id : Nat
  course_name : String
deriving DecidableEq

/-- The relational store of the student pipeline. -/
structure SchoolDB where
  students : List Student
  nextStudentId : Nat
  courses : List Course
  enrollments : List (Nat × Nat)
deriving DecidableEq

/-- SELECT ... FROM students WHERE email = e (email is UNIQUE, so first match
is the match). -/
def findStudent (email : String) (db : SchoolDB) : Option Student :=
  db.students.find? (fun s => s.email = email)

/-- SELECT course_id FROM courses WHERE course_name = c. -/
def findCourse (course : String) (db : SchoolDB) : Option Course :=
  db.courses.find? (fun c => c.course_name = course)

/-- The DO UPDATE SET email = p_email action on one row: it rewrites the
conflicting row's email with the same value. -/
def updateEmailRow (email : String) (st : Student) : Student :=
  if st.email = email then { st with email := email } else st

/-- The student id the RETURNING clause / fallback SELECT resolves for an
email. -/
def studentIdFor (email : String) (db : SchoolDB) : Nat :=
  match findStudent email db with
  | some s => s.student_id
  | none => 0

/-- register_student: get-or-create the student by unique email, then enroll
into the course (when it exists) with ON CONFLICT DO NOTHING. -/
def registerStudent (first last email course : String) (db : SchoolDB) :
    SchoolDB :=
  let p :=
    match findStudent email db with
    | some s =>
      (s.student_id, { db with students := db.students.map (updateEmailRow email) })
    | none =>
      (db.nextStudentId,
        { db with
            students := db.students ++
              [({ student_id := db.nextStudentId, first_name := first,
                  last_name := last, email := email } : Student)]
            nextStudentId := db.nextStudentId + 1 })
  let sid := p.1
  let db1 := p.2
  match findCourse course db1 with
  | none => db1
  | some c =>
    if (sid, c.course_id) ∈ db1.enrollments then db1
    else { db1 with enrollments := db1.enrollments ++ [(sid, c.course_id)] }

/-- One record of the four CALL register_student parameters. -/
structure RegRecord where
  firstName : String
  lastName : String
  email : String
  course : String
deriving DecidableEq

/-- Store contents after running register_student for every record in order
(the load loop of etl.js, stripped of its counter). -/
def registerAll (rows : List RegRecord) (db : SchoolDB) : SchoolDB :=
  rows.foldl (fun d r => registerStudent r.firstName r.lastName r.email r.course d) db

/-- loadData from etl.js: CALL register_student once per transformed record,
counting the calls that completed without error (with no failure injected,
all of them). -/
def loadData (rows : List RegRecord) (db : SchoolDB) : Nat × SchoolDB :=
  rows.foldl (fun acc r =>
    (acc.1 + 1, registerStudent r.firstName r.lastName r.email r.course acc.2)) (0, db)

/-- The conflicting-row update writes the value that already matched. -/
theorem updateEmailRow_id (email : String) (st : Student) :
    updateEmailRow email st = st := by
  rcases st with ⟨i, f, l, e⟩
  unfold updateEmailRow
  by_cases h : e = email <;> simp [h]

/-- The DO UPDATE pass over the whole table is the identity. -/
theorem map_updateEmailRow_id (email : String) (l : List Student) :
    l.map (updateEmailRow email) = l := by
  induction l with
  | nil => rfl
  | cons x xs ih => simp [updateEmailRow_id, ih]

/-- loadData returns the number of records and the registerAll store. -/
theorem loadData_eq (rows : List RegRecord) (db : SchoolDB) :
    loadData rows db = (rows.length, registerAll rows db) := by
  have haux : ∀ (l : List RegRecord) (c : Nat) (d : SchoolDB),
      l.foldl (fun acc r =>
        (acc.1 + 1, registerStudent r.firstName r.lastName r.email r.course acc.2)) (c, d) =
      (c + l.length, registerAll l d) := by
    intro l
    induction l with
    | nil => intro c d; simp [registerAll]
    | cons x xs ih =>
      intro c d
      simp only [List.foldl_cons, List.length_cons]
      rw [ih]
      simp [registerAll, Nat.add_comm, Nat.add_assoc, Nat.add_left_comm]
  simpa [loadData] using haux rows 0 db

/-- Students after register_student: unchanged on conflict, one appended row
otherwise. -/
theorem registerStudent_students (first last email course : String)
    (db : SchoolDB) :
    (registerStudent first last email course db).students =
      match findStudent email db with
      | some _ => db.students
      | none => db.students ++
          [({ student_id := db.nextStudentId, first_name := first,
              last_name := last, email := email } : Student)] := by
  unfold registerStudent
  cases h : findStudent email db <;>
    simp only [h] <;>
      cases hc : findCourse course _ <;>
        simp [map_updateEmailRow_id] <;>
          split <;> simp [map_updateEmailRow_id]

/-- Courses are never written by register_student. -/
theorem registerStudent_courses (first last email course : String)
    (db : SchoolDB) :
    (registerStudent first last email course db).courses = db.courses := by
  unfold registerStudent
  cases h : findStudent email db <;>
    simp only [h] <;>
      cases hc : findCourse course _ <;>
        simp <;>
          split <;> simp

/-- Enrollments only grow under register_student. -/
theorem registerStudent_enroll_mono (first last email course : String)
    (db : SchoolDB) (x : Nat × Nat) (hx : x ∈ db.enrollments) :
    x ∈ (registerStudent first last email course db).enrollments := by
  unfold registerStudent
  cases h : findStudent email db <;>
    simp only [h] <;>
      cases hc : findCourse course _ <;>
        simp [hx] <;>
          split <;> simp [hx]

/-- Normal form of register_student when the email already exists: the
students table is untouched and only an enrollment may be appended. -/
theorem registerStudent_eq_some (first last email course : String)
    (db : SchoolDB) (s : Student) (h : findStudent email db = some s) :
    registerStudent first last email course db =
      match findCourse course db with
      | none => db
      | some c =>
        if (s.student_id, c.course_id) ∈ db.enrollments then db
        else { db with enrollments := db.enrollments ++ [(s.student_id, c.course_id)] } := by
  unfold registerStudent
  simp only [h, map_updateEmailRow_id]

/-- Normal form of register_student when the email is new: the fresh student
row is appended and an enrollment may follow. -/
theorem registerStudent_eq_none (first last email course : String)
    (db : SchoolDB) (h : findStudent email db = none) :
    registerStudent first last email course db =
      (let dbNew : SchoolDB :=
        { db with
            students := db.students ++
              [({ student_id := db.nextStudentId, first_name := first,
                  last_name := last, email := email } : Student)]
            nextStudentId := db.nextStudentId + 1 }
      match findCourse course db with
      | none => dbNew
      | some c =>
        if (db.nextStudentId, c.course_id) ∈ db.enrollments then dbNew
        else { dbNew with enrollments := db.enrollments ++ [(db.nextStudentId, c.course_id)] }) := by
  unfold registerStudent
  simp only [h]
  rfl

/-- A student found stays found, untouched, across any register_student. -/
theorem findStudent_registerStudent_some (email : String) (s : Student)
    (first last email2 course : String) (db : SchoolDB)
    (h : findStudent email db = some s) :
    findStudent email (registerStudent first last email2 course db) = some s := by
  unfold findStudent at h ⊢
  rw [registerStudent_students]
  cases h2 : findStudent email2 db with
  | some s2 => simpa using h
  | none =>
    simp only
    rw [List.find?_append, h]
    rfl

/-- The resolved student id of a present email is stable across any
register_student. -/
theorem studentIdFor_registerStudent_some (email : String) (s : Student)
    (first last email2 course : String) (db : SchoolDB)
    (h : findStudent email db = some s) :
    studentIdFor email (registerStudent first last email2 course db) =
      studentIdFor email db := by
  unfold studentIdFor
  rw [findStudent_registerStudent_some email s first last email2 course db h, h]

/-- Course lookup is invariant under register_student. -/
theorem findCourse_registerStudent (c first last email course : String)
    (db : SchoolDB) :
    findCourse c (registerStudent first last email course db) = findCourse c db := by
  unfold findCourse
  rw [registerStudent_courses]

/-- A record is absorbed by a store when its student row exists and, if its
course exists, so does the corresponding enrollment: register_student is then
a no-op. -/
def Pabsorbed (r : RegRecord) (db : SchoolDB) : Prop :=
  (findStudent r.email db).isSome = true ∧
  ∀ c, findCourse r.course db = some c →
    (studentIdFor r.email db, c.course_id) ∈ db.enrollments

/-- register_student is the identity on a store that absorbs the record. -/
theorem registerStudent_absorbed (r : RegRecord) (db : SchoolDB)
    (h : Pabsorbed r db) :
    registerStudent r.firstName r.lastName r.email r.course db = db := by
  obtain ⟨h1, h2⟩ := h
  obtain ⟨s, hs⟩ := Option.isSome_iff_exists.mp h1
  rw [registerStudent_eq_some r.firstName r.lastName r.email r.course db s hs]
  cases hc : findCourse r.course db with
  | none => rfl
  | some c =>
    have hmem := h2 c hc
    unfold studentIdFor at hmem
    rw [hs] at hmem
    simp [hmem]

/-- After register_student runs on a record, the store absorbs it. -/
theorem registerStudent_establishes (r : RegRecord) (db : SchoolDB) :
    Pabsorbed r (registerStudent r.firstName r.lastName r.email r.course db) := by
  cases hs : findStudent r.email db with
  | some s =>
    have hfind := findStudent_registerStudent_some r.email s r.firstName r.lastName
      r.email r.course db hs
    constructor
    · rw [hfind]; rfl
    · intro c hc
      rw [findCourse_registerStudent] at hc
      have hid : studentIdFor r.email
          (registerStudent r.firstName r.lastName r.email r.course db) = s.student_id := by
        unfold studentIdFor
        rw [hfind]
      rw [hid]
      rw [registerStudent_eq_some r.firstName r.lastName r.email r.course db s hs]
      simp only [hc]
      by_cases hin : (s.student_id, c.course_id) ∈ db.enrollments
      · simp [hin]
      · simp [hin]
  | none =>
    rw [registerStudent_eq_none r.firstName r.lastName r.email r.course db hs]
    simp only
    have hnewfind : ∀ tail : List (Nat × Nat),
        findStudent r.email
          { db with
              students := db.students ++
                [({ student_id := db.nextStudentId, first_name := r.firstName,
                    last_name := r.lastName, email := r.email } : Student)]
              nextStudentId := db.nextStudentId + 1
              enrollments := tail } =
          some ({ student_id := db.nextStudentId, first_name := r.firstName,
                  last_name := r.lastName, email := r.email } : Student) := by
      intro tail
      unfold findStudent at hs ⊢
      simp only
      rw [List.find?_append, hs]
      simp [List.find?]
    cases hc : findCourse r.course db with
    | none =>
      constructor
      · have := hnewfind db.enrollments
        simp only [hc]
        rw [show ({ db with
              students := db.students ++
                [({ student_id := db.nextStudentId, first_name := r.firstName,
                    last_name := r.lastName, email := r.email } : Student)]
              nextStudentId := db.nextStudentId + 1 } : SchoolDB) =
            { db with
              students := db.students ++
                [({ student_id := db.nextStudentId, first_name := r.firstName,
                    last_name := r.lastName, email := r.email } : Student)]
              nextStudentId := db.nextStudentId + 1
              enrollments := db.enrollments } from rfl]
        rw [this]
        rfl
      · intro c hc2
        simp only [hc] at hc2 ⊢
        rw [show findCourse r.course
            ({ db with
              students := db.students ++
                [({ student_id := db.nextStudentId, first_name := r.firstName,
                    last_name := r.lastName, email := r.email } : Student)]
              nextStudentId := db.nextStudentId + 1 } : SchoolDB) =
            findCourse r.course db from rfl] at hc2
        rw [hc] at hc2
        cases hc2
    | some c =>
      simp only [hc]
      by_cases hin : (db.nextStudentId, c.course_id) ∈ db.enrollments
      · simp only [hin, if_true]
        constructor
        · rw [hnewfind db.enrollments]; rfl
        · intro c2 hc2
          rw [show findCourse r.course
              ({ db with
                students := db.students ++
                  [({ student_id := db.nextStudentId, first_name := r.firstName,
                      last_name := r.lastName, email := r.email } : Student)]
                nextStudentId := db.nextStudentId + 1 } : SchoolDB) =
              findCourse r.course db from rfl, hc] at hc2
          cases hc2
          unfold studentIdFor
          rw [hnewfind db.enrollments]
          simpa using hin
      · simp only [hin, if_false]
        constructor
        · rw [hnewfind (db.enrollments ++ [(db.nextStudentId, c.course_id)])]; rfl
        · intro c2 hc2
          rw [show findCourse r.course
              ({ db with
                students := db.students ++
                  [({ student_id := db.nextStudentId, first_name := r.firstName,
                      last_name := r.lastName, email := r.email } : Student)]
                nextStudentId := db.nextStudentId + 1
                enrollments := db.enrollments ++ [(db.nextStudentId, c.course_id)] } : SchoolDB) =
              findCourse r.course db from rfl, hc] at hc2
          cases hc2
          unfold studentIdFor
          rw [hnewfind (db.enrollments ++ [(db.nextStudentId, c.course_id)])]
          simp

/-- Absorption survives any further register_student call. -/
theorem Pabsorbed_preserved (r r2 : RegRecord) (db : SchoolDB)
    (h : Pabsorbed r db) :
    Pabsorbed r (registerStudent r2.firstName r2.lastName r2.email r2.course db) := by
  obtain ⟨h1, h2⟩ := h
  obtain ⟨s, hs⟩ := Option.isSome_iff_exists.mp h1
  constructor
  · rw [findStudent_registerStudent_some r.email s _ _ _ _ db hs]
    rfl
  · intro c hc
    rw [findCourse_registerStudent] at hc
    rw [studentIdFor_registerStudent_some r.email s _ _ _ _ db hs]
    exact registerStudent_enroll_mono _ _ _ _ db _ (h2 c hc)

/-- Absorption survives a whole further load. -/
theorem Pabsorbed_registerAll (r : RegRecord) (rows : List RegRecord) :
    ∀ db, Pabsorbed r db → Pabsorbed r (registerAll rows db) := by
  induction rows with
  | nil => intro db h; exact h
  | cons x xs ih =>
    intro db h
    exact ih _ (Pabsorbed_preserved r x db h)

/-- After a load, the store absorbs every loaded record. -/
theorem registerAll_establishes (rows : List RegRecord) :
    ∀ db, ∀ r ∈ rows, Pabsorbed r (registerAll rows db) := by
  induction rows with
  | nil => intro db r hr; cases hr
  | cons x xs ih =>
    intro db r hr
    rcases List.mem_cons.mp hr with hx | hxs
    · subst hx
      exact Pabsorbed_registerAll r xs _ (registerStudent_establishes r db)
    · exact ih _ r hxs

/-- A load whose records are all absorbed is the identity. -/
theorem registerAll_absorbed (rows : List RegRecord) :
    ∀ db, (∀ r ∈ rows, Pabsorbed r db) → registerAll rows db = db := by
  induction rows with
  | nil => intro db _; rfl
  | cons x xs ih =>
    intro db h
    have hx := registerStudent_absorbed x db (h x (List.mem_cons_self x xs))
    show registerAll xs (registerStudent x.firstName x.lastName x.email x.course db) = db
    rw [hx]
    exact ih db (fun r hr => h r (List.mem_cons_of_mem x hr))

/-- Loading the same records twice leaves the store as after the first load. -/
theorem registerAll_idem (rows : List RegRecord) (db : SchoolDB) :
    registerAll rows (registerAll rows db) = registerAll rows db :=
  registerAll_absorbed rows _ (registerAll_establishes rows db)

/-- C1: loading the same record set twice yields the same store content as
loading it once.  For the Titanic batch loader the second run reports zero
inserted rows (every key conflicts and is skipped by the DO NOTHING clause)
and returns the store of the first run unchanged; for the student pipeline,
re-running register_student over every already-loaded record is the identity
on the store (the ON CONFLICT (email) DO UPDATE rewrites the conflicting
email with itself and the enrollment insert is conflict-skipped).  No
uniqueness violation can be raised: both conflict clauses absorb the
duplicate instead of erroring, by construction of the insert semantics. -/
theorem claim_C1_second_load_is_noop (b : Nat) (_hb : 0 < b)
    (recs t : List TitanicData) (rows : List RegRecord) (db : SchoolDB) :
    loadTitanicData b recs (loadTitanicData b recs t).2 =
      (0, (loadTitanicData b recs t).2) ∧
    registerAll rows (registerAll rows db) = registerAll rows db := by
  constructor
  · simp only [loadTitanicData_eq]
    exact titanicInsertBatch_idem recs t
  · exact registerAll_idem rows db

/-- C1 concrete Titanic row for the witness. -/
def wTit : TitanicData :=
  { passenger_id := 7, survived := 0, pclass := 3, name := "Braund", sex := "male",
    age := none, sibsp := 0, parch := 0, ticket := "A5", fare := JsNumber.ofInt 0,
    cabin := "", embarked := "S" }

/-- C1 concrete student record and store for the witness. -/
def wReg : RegRecord :=
  { firstName := "Ann", lastName := "Lee", email := "ann@x.com", course := "Math" }

/-- Store with one course and no students. -/
def wDb : SchoolDB :=
  { students := [], nextStudentId := 1,
    courses := [({ course_id := 7, course_name := "Math" } : Course)],
    enrollments := [] }

/-- C1 witness: the idempotence theorem applied at batch size 2, one Titanic
row and one student record over concrete stores. -/
theorem claim_C1_witness :
    loadTitanicData 2 [wTit] (loadTitanicData 2 [wTit] []).2 =
      (0, (loadTitanicData 2 [wTit] []).2) ∧
    registerAll [wReg] (registerAll [wReg] wDb) = registerAll [wReg] wDb :=
  claim_C1_second_load_is_noop 2 (by decide) [wTit] [] [wReg] wDb

/-- Total number of rows the student-pipeline store holds. -/
def dbRowTotal (db : SchoolDB) : Nat :=
  db.students.length + db.enrollments.length

/-- C4 concrete already-loaded student row. -/
def c4Student : Student :=
  { student_id := 1, first_name := "John", last_name := "Smith", email := "john@x.com" }

/-- C4 concrete store: the student is already loaded. -/
def c4Db : SchoolDB :=
  { students := [c4Student], nextStudentId := 2, courses := [], enrollments := [] }

/-- C4 concrete record: the very student already in the store. -/
def c4Rec : RegRecord :=
  { firstName := "John", lastName := "Smith", email := "john@x.com", course := "Math" }

/-- C4 counterexample: the student loader loadData reports 1 for a batch of
one record whose insert was entirely conflict-skipped (the store is
unchanged, so zero rows were actually written): its count equals the number
of attempted inserts, not the number of rows written. -/
theorem claim_C4_counterexample :
    (loadData [c4Rec] c4Db).1 = 1 ∧
    (loadData [c4Rec] c4Db).2 = c4Db ∧
    (loadData [c4Rec] c4Db).1 ≠ dbRowTotal (loadData [c4Rec] c4Db).2 - dbRowTotal c4Db := by
  refine ⟨?_, ?_, ?_⟩ <;> decide

/-- C4 amended: the Titanic (and Netflix) batch loader sums the
store-reported per-statement counts, so its result is exactly the number of
rows actually written (the store grows by precisely that many rows, conflict
skips excluded); the student loader loadData instead returns the number of
register_student calls that completed, which is the number of attempted
records even when rows were conflict-skipped. -/
theorem claim_C4_loader_row_counts (b : Nat) (_hb : 0 < b)
    (recs t : List TitanicData) (rows : List RegRecord) (db : SchoolDB) :
    (loadTitanicData b recs t).2.length = t.length + (loadTitanicData b recs t).1 ∧
    (loadData rows db).1 = rows.length := by
  constructor
  · simp only [loadTitanicData_eq]
    exact titanicInsertBatch_length recs t
  · rw [loadData_eq]

/-- C4 witness: the amended theorem applied at batch size 2, a Titanic run
over a store already containing the row, and the student record batch. -/
theorem claim_C4_witness :
    (loadTitanicData 2 [wTit] [wTit]).2.length =
      [wTit].length + (loadTitanicData 2 [wTit] [wTit]).1 ∧
    (loadData [c4Rec] c4Db).1 = [c4Rec].length :=
  claim_C4_loader_row_counts 2 (by decide) [wTit] [wTit] [c4Rec] c4Db

/-! ## executeTransaction (db.js) composed with the row loop of loadData -/

/-- The load loop of etl.js with a fallible per-row insert step: each CALL
register_student may fail (step returns an error), which aborts the loop; the
store component carries the uncommitted work of the connection, including the
rows inserted before a failure. -/
def loadDataT (step : RegRecord → SchoolDB → Except DbErr SchoolDB) :
    List RegRecord → SchoolDB → Except DbErr Nat × SchoolDB
  | [], db => (.ok 0, db)
  | r :: rest, db =>
    match step r db with
    | .error e => (.error e, db)
    | .ok db2 =>
      let p := loadDataT step rest db2
      (match p.1 with
       | .ok n => .ok (n + 1)
       | .error e => .error e, p.2)

/-- executeTransaction from db.js: BEGIN, run the callback on the
transactional handle, COMMIT its state on success, ROLLBACK to the
pre-transaction store and rethrow on any exception. -/
def executeTransaction {α : Type}
    (callback : SchoolDB → Except DbErr α × SchoolDB) (db : SchoolDB) :
    Except DbErr α × SchoolDB :=
  match callback db with
  | (.ok a, db2) => (.ok a, db2)
  | (.error e, _) => (.error e, db)

/-- C5: for every callback (in particular the row-insert loop loadDataT with
any fallible step), if the callback throws then the transaction leaves the
store exactly as before the transaction — whatever partial batch the
callback had built is discarded — and the same error propagates to the
caller; if the callback returns normally, its result and its store are
committed unchanged. -/
theorem claim_C5_rollback_discards_partial_commit {α : Type}
    (callback : SchoolDB → Except DbErr α × SchoolDB) (db : SchoolDB) :
    (∀ e, (callback db).1 = .error e →
      executeTransaction callback db = (.error e, db)) ∧
    (∀ (a : α) (db2 : SchoolDB), callback db = (.ok a, db2) →
      executeTransaction callback db = (.ok a, db2)) := by
  constructor
  · intro e he
    unfold executeTransaction
    rcases hp : callback db with ⟨res, db2⟩
    rw [hp] at he
    simp only at he
    subst he
    rfl
  · intro a db2 hp
    unfold executeTransaction
    rw [hp]

/-- C5 witness step: the second record's insert fails with a NOT NULL
violation code; every other record registers normally. -/
def c5Step : RegRecord → SchoolDB → Except DbErr SchoolDB :=
  fun r db =>
    if r.email = "bad@x.com" then .error ⟨"23502"⟩
    else .ok (registerStudent r.firstName r.lastName r.email r.course db)

/-- C5 witness good record. -/
def c5Good : RegRecord :=
  { firstName := "Ann", lastName := "Lee", email := "ann@x.com", course := "Math" }

/-- C5 witness failing record. -/
def c5Bad : RegRecord :=
  { firstName := "Bob", lastName := "Roe", email := "bad@x.com", course := "Math" }

/-- C5 witness batch: one good record, then one failing record. -/
def c5Rows : List RegRecord := [c5Good, c5Bad]

/-- C5 witness: a mid-batch row failure rolls the store back to its
pre-transaction state and propagates the error, even though the failed
callback had already inserted the first row (its uncommitted store differs
from the initial one). -/
theorem claim_C5_witness :
    executeTransaction (loadDataT c5Step c5Rows) wDb = (.error ⟨"23502"⟩, wDb) ∧
    (loadDataT c5Step c5Rows wDb).2 ≠ wDb := by
  constructor
  · exact (claim_C5_rollback_discards_partial_commit (loadDataT c5Step c5Rows) wDb).1
      ⟨"23502"⟩ (by rfl)
  · decide

/-! ## runETL (etl.js): the orchestrator from extraction onward

Pool/sheets initialization, extraction and the cache are external I/O; the
model starts where runETL has the extracted rows in hand.  The audit step,
the generateQualityReport call, is modelled by the auditorRan flag (its own
behavior is the quality section above); sheet feedback writes are collected
as (range, value) pairs handed to batchUpdateSheet. -/

/-- Configured source kind of the pipeline. -/
inductive SourceType
  | sheet
  | csv
  | json
deriving DecidableEq

/-- transformRow from etl.js: validate, throw the joined error list on
failure, return the normalized record on success. -/
def transformRow (isEmail : String → Bool) (row : StudentRaw) :
    Except String StudentData :=
  let validation := validateStudentRow isEmail row
  if validation.valid then .ok validation.data
  else .error (String.intercalate "; " validation.errors)

/-- The four register_student arguments drawn from a normalized record. -/
def toRegRecord (d : StudentData) : RegRecord :=
  { firstName := d.firstName.getD "", lastName := d.lastName.getD "",
    email := d.email.getD "", course := d.course }

/-- The transform loop of runETL: visit rows in order (sheet row number is
index + 2), skip non-pending rows for the sheet source, collect accepted
records with their row index, and collect one error feedback cell per
rejected row (message truncated to 100 characters). -/
def processRowsAux (isEmail : String → Bool) (src : SourceType) :
    Nat → List StudentRaw → List (StudentData × Nat) × List (String × String)
  | _, [] => ([], [])
  | i, row :: rest =>
    let rowIndex := i + 2
    let p := processRowsAux isEmail src (i + 1) rest
    if src = SourceType.sheet ∧ row.c9 ≠ some "Pending Sync" then p
    else
      match transformRow isEmail row with
      | .ok d => ((d, rowIndex) :: p.1, p.2)
      | .error msg =>
        (p.1, ("Sheet1!J" ++ toString rowIndex, "Error: " ++ jsSubstring msg 100) :: p.2)

/-- Observable outcome of one run of the orchestrator. -/
structure RunResult where
  loadedCount : Option Nat
  auditorRan : Bool
  sheetWrites : List (String × String)
  finalDb : SchoolDB

/-- runETL from etl.js, from the extracted rows onward: empty extraction
returns at once; zero accepted records returns early, flushing only the
accumulated error feedback (sheet source) and invoking neither the Loader
nor the Quality Auditor; otherwise the batch is loaded in one transaction,
Synced cells are appended to the feedback and the audit runs. -/
def runETLModel (isEmail : String → Bool) (src : SourceType)
    (rows : List StudentRaw) (db : SchoolDB) : RunResult :=
  if rows.length = 0 then
    { loadedCount := none, auditorRan := false, sheetWrites := [], finalDb := db }
  else
    let p := processRowsAux isEmail src 0 rows
    if p.1.length = 0 then
      { loadedCount := none, auditorRan := false,
        sheetWrites :=
          if p.2.length > 0 ∧ src = SourceType.sheet then p.2 else [],
        finalDb := db }
    else
      let q := loadData (p.1.map (fun dr => toRegRecord dr.1)) db
      { loadedCount := some q.1, auditorRan := true,
        sheetWrites :=
          if src = SourceType.sheet then
            p.2 ++ p.1.map (fun dr => ("Sheet1!J" ++ toString dr.2, "Synced"))
          else [],
        finalDb := q.2 }

/-- The error feedback a sheet-source run accumulates, computed
independently of the orchestrator loop: one Error cell per pending row that
fails validation, in row order. -/
def sheetErrorFeedbackAux (isEmail : String → Bool) :
    Nat → List StudentRaw → List (String × String)
  | _, [] => []
  | i, row :: rest =>
    let tail := sheetErrorFeedbackAux isEmail (i + 1) rest
    if row.c9 ≠ some "Pending Sync" then tail
    else
      match transformRow isEmail row with
      | .ok _ => tail
      | .error msg =>
        ("Sheet1!J" ++ toString (i + 2), "Error: " ++ jsSubstring msg 100) :: tail

/-- Error feedback of a whole extraction. -/
def sheetErrorFeedback (isEmail : String → Bool) (rows : List StudentRaw) :
    List (String × String) :=
  sheetErrorFeedbackAux isEmail 0 rows

/-- A rejected row makes transformRow throw the joined error list. -/
theorem transformRow_error_of_invalid (isEmail : String → Bool)
    (row : StudentRaw) (h : (validateStudentRow isEmail row).valid = false) :
    transformRow isEmail row =
      .error (String.intercalate "; " (validateStudentRow isEmail row).errors) := by
  unfold transformRow
  simp [h]

/-- When every row is rejected the transform loop accepts nothing, and for
the sheet source its feedback is exactly the independent error feedback. -/
theorem processRowsAux_all_invalid (isEmail : String → Bool) (src : SourceType) :
    ∀ (rows : List StudentRaw),
      (∀ row ∈ rows, (validateStudentRow isEmail row).valid = false) →
      ∀ i, (processRowsAux isEmail src i rows).1 = [] ∧
        (src = SourceType.sheet →
          (processRowsAux isEmail src i rows).2 = sheetErrorFeedbackAux isEmail i rows) := by
  intro rows
  induction rows with
  | nil =>
    intro _ i
    exact ⟨rfl, fun _ => rfl⟩
  | cons row rest ih =>
    intro h i
    obtain ⟨h1, h2⟩ := ih (fun r hr => h r (List.mem_cons_of_mem row hr)) (i + 1)
    have hrow : (validateStudentRow isEmail row).valid = false :=
      h row (List.mem_cons_self row rest)
    have htr := transformRow_error_of_invalid isEmail row hrow
    unfold processRowsAux sheetErrorFeedbackAux
    by_cases hskip : src = SourceType.sheet ∧ row.c9 ≠ some "Pending Sync"
    · rw [if_pos hskip]
      refine ⟨h1, fun hs => ?_⟩
      rw [if_pos hskip.2]
      exact h2 hs
    · rw [if_neg hskip, htr]
      refine ⟨h1, fun hs => ?_⟩
      have hc9 : ¬ row.c9 ≠ some "Pending Sync" := fun hne => hskip ⟨hs, hne⟩
      rw [if_neg hc9]
      simp only
      rw [h2 hs]

/-- C8: in every run where each extracted row is rejected (zero records
accepted), the orchestrator returns early: the Loader is never invoked and
the store untouched, the Quality Auditor is never invoked, and for the
spreadsheet source exactly the accumulated per-row error feedback is still
written back to the source before returning. -/
theorem claim_C8_zero_accepted_short_circuits (isEmail : String → Bool)
    (src : SourceType) (rows : List StudentRaw) (db : SchoolDB)
    (hrej : ∀ row ∈ rows, (validateStudentRow isEmail row).valid = false) :
    (runETLModel isEmail src rows db).loadedCount = none ∧
    (runETLModel isEmail src rows db).auditorRan = false ∧
    (runETLModel isEmail src rows db).finalDb = db ∧
    (src = SourceType.sheet →
      (runETLModel isEmail src rows db).sheetWrites = sheetErrorFeedback isEmail rows) := by
  obtain ⟨h1, h2⟩ := processRowsAux_all_invalid isEmail src rows hrej 0
  unfold runETLModel
  by_cases hlen : rows.length = 0
  · rw [if_pos hlen]
    refine ⟨rfl, rfl, rfl, fun _ => ?_⟩
    have hnil : rows = [] := List.length_eq_zero.mp hlen
    subst hnil
    rfl
  · rw [if_neg hlen]
    simp only [h1, List.length_nil, if_true]
    refine ⟨trivial, trivial, trivial, fun hs => ?_⟩
    rw [h2 hs]
    unfold sheetErrorFeedback
    by_cases hw : (sheetErrorFeedbackAux isEmail 0 rows).length > 0
    · rw [if_pos ⟨hw, hs⟩]
    · rw [if_neg (fun hc => hw hc.1)]
      have : sheetErrorFeedbackAux isEmail 0 rows = [] := by
        cases hfe : sheetErrorFeedbackAux isEmail 0 rows with
        | nil => rfl
        | cons a l => rw [hfe] at hw; simp at hw
      rw [this]

/-- C8 witness row: pending status, empty otherwise, hence rejected for
missing name and email. -/
def c8Row : StudentRaw := { c9 := some "Pending Sync" }

/-- C8 witness: one pending, invalid row under the sheet source: no load, no
audit, store untouched, and the single error cell is flushed. -/
theorem claim_C8_witness :
    (runETLModel c6IsEmail SourceType.sheet [c8Row] wDb).loadedCount = none ∧
    (runETLModel c6IsEmail SourceType.sheet [c8Row] wDb).auditorRan = false ∧
    (runETLModel c6IsEmail SourceType.sheet [c8Row] wDb).finalDb = wDb ∧
    (SourceType.sheet = SourceType.sheet →
      (runETLModel c6IsEmail SourceType.sheet [c8Row] wDb).sheetWrites =
        sheetErrorFeedback c6IsEmail [c8Row]) :=
  claim_C8_zero_accepted_short_circuits c6IsEmail SourceType.sheet [c8Row] wDb
    (by
      intro row hr
      rw [List.mem_singleton] at hr
      subst hr
      decide)

end ETLSpec
